import Mathlib

/-!
Verification development for the Advocate repository's core subsystems:
the campaign-response parser (`CampaignIdeaGenerator._process_campaign_response`
and `_add_prompt_suggestions` in src/src/agents/marketing/campaign_generator.py),
the two-tier research cache (`get_research_data` in src/app.py together with
`ChromaStore.search` in src/models/vectorstore/chroma_store.py), and the retry
policy wrapped around campaign generation.

Python strings are modelled as Lean `String`s, Python dicts (insertion-ordered,
in-place update on existing keys) as association lists, Python exceptions as
`Except`.
-/

/-- Python `s.strip()` on a character list: drop whitespace from both ends. -/
def pyStripChars (cs : List Char) : List Char :=
  ((cs.dropWhile Char.isWhitespace).reverse.dropWhile Char.isWhitespace).reverse

/-- Python `s.strip()` on a `String`. -/
def pyStrip (s : String) : String := ⟨pyStripChars s.data⟩

/-- Text before the first colon: Python `line.split(':', 1)[0]`
(the whole line when no colon is present). -/
def beforeColon (cs : List Char) : List Char := cs.takeWhile (· != ':')

/-- Text after the first colon: Python `line.split(':', 1)[1]`
(meaningful only when `hasColon` holds). -/
def afterColon (cs : List Char) : List Char := (cs.dropWhile (· != ':')).drop 1

/-- Python `':' in line`. -/
def hasColon (cs : List Char) : Bool := cs.contains ':'

/-- Python `s.split('.')[1]`: the piece between the first and second period.
`none` models the `IndexError` raised when the string contains no period. -/
def secondDotPiece (cs : List Char) : Option (List Char) :=
  if cs.contains '.' then some (((cs.dropWhile (· != '.')).drop 1).takeWhile (· != '.'))
  else none

/-- Python `s.strip().lower().replace(' ', '_')`, the key-derivation rule used
for section keys, sub-keys and top-level key:value keys. -/
def normKey (cs : List Char) : String :=
  ⟨(pyStripChars cs).map (fun c => if c == ' ' then '_' else c.toLower)⟩

/-- Python `line.lstrip('- ')`: drop leading dashes and spaces. -/
def lstripDashSpace (cs : List Char) : List Char :=
  cs.dropWhile (fun c => c == '-' || c == ' ')

/-- The source's section-header test
`any(line.startswith(str(i)) for i in range(1, 10))`:
the first character is a decimal digit 1-9 (no period is required). -/
def startsDigit19 (cs : List Char) : Bool :=
  match cs with
  | [] => false
  | c :: _ => decide ('1' ≤ c ∧ c ≤ '9')

/-- Lookup in a Python dict modelled as an association list. -/
def dget {α : Type} : List (String × α) → String → Option α
  | [], _ => none
  | (k, v) :: rest, key => if k = key then some v else dget rest key

/-- Python dict assignment `d[key] = v`: replace in place when the key exists
(keeping its position), otherwise append at the end. -/
def dinsert {α : Type} (key : String) (v : α) : List (String × α) → List (String × α)
  | [] => [(key, v)]
  | (k, w) :: rest => if k = key then (key, v) :: rest else (k, w) :: dinsert key v rest

/-- A campaign-record value: a text scalar or a nested subsection mapping. -/
inductive Val : Type where
  | str (s : String)
  | dict (d : List (String × String))
deriving DecidableEq, Repr

/-- One campaign record: an insertion-ordered mapping from derived keys to values. -/
abbrev Campaign : Type := List (String × Val)

/-- The loop state of `_process_campaign_response`: sealed campaigns,
`current_campaign`, `current_section`, `subsection_data`, plus `aliased` — the
bookkeeping this embedding uses for Python's reference semantics. In the
source, `current_campaign[current_section] = subsection_data` stores a
reference to the live `subsection_data` dict object, so a later
`subsection_data[key] = value` retroactively changes the already-flushed
section. `aliased` records exactly which keys of `current_campaign` currently
hold that live object; every mutation of the accumulator is written through to
them (`writeThrough`), and an assignment that rebinds such a record entry, or
a rebinding of `subsection_data` itself to a fresh dict, drops the
corresponding aliases. Sealed campaigns never alias the live object: the only
seal sites (campaign start and end of input) are immediately followed by a
rebind of `subsection_data`, respectively the end of the loop, so a plain
value write is exact there. -/
structure PState : Type where
  campaigns : List Campaign
  current_campaign : Campaign
  current_section : Option String
  subsection_data : List (String × String)
  aliased : List String
deriving DecidableEq, Repr

/-- Initial parser state: `campaigns = []`, `current_campaign = {}`,
`current_section = None`, `subsection_data = {}`, no aliases. -/
def initPState : PState := ⟨[], [], none, [], []⟩

/-- Python truthiness of `current_section`: `None` and the empty string are falsy. -/
def secTruthy : Option String → Bool
  | none => false
  | some s => s != ""

/-- The flush `current_campaign[current_section] = subsection_data` guarded by
`if subsection_data:` (campaign-start branch and end of input). A nonempty
`subsection_data` implies `current_section` is not `None` (subsection entries
are only inserted while a section is open), so the `getD` default is unreachable. -/
def flushSub (camp : Campaign) (sec : Option String) (sub : List (String × String)) :
    Campaign :=
  if sub = [] then camp else dinsert (sec.getD "") (Val.dict sub) camp

/-- The flush at the top of the section-header branch, guarded by
`if current_section and subsection_data:`. This writes the accumulator's
current contents into the record; the flushed entry stays aliased to the live
accumulator object — `stepLine` records that in `PState.aliased`, so later
mutations of the accumulator reach it through `writeThrough`. -/
def flushHeader (camp : Campaign) (sec : Option String) (sub : List (String × String)) :
    Campaign :=
  if secTruthy sec = true ∧ sub ≠ [] then dinsert (sec.getD "") (Val.dict sub) camp
  else camp

/-- The alias-set counterpart of `flushHeader`: when the flush fires, the
flushed section key now holds a reference to the live accumulator object. -/
def aliasAfterFlush (sec : Option String) (sub : List (String × String))
    (al : List String) : List String :=
  if secTruthy sec = true ∧ sub ≠ [] then List.insert (sec.getD "") al else al

/-- Drop the alias on one record key: assigning `current_campaign[key] = ...`
rebinds that dict entry away from the live accumulator object. -/
def unalias (key : String) (al : List String) : List String :=
  al.filter (· != key)

/-- Replay a mutation of the live accumulator object through every record key
that aliases it (Python needs no such step: those entries are the same
object). -/
def writeThrough : List String → Val → Campaign → Campaign
  | [], _, camp => camp
  | a :: rest, v, camp => writeThrough rest v (dinsert a v camp)

/-- The sub-key of a subsection line:
`line.lstrip('- ').split(':', 1)[0].strip().lower().replace(' ', '_')`. -/
def bulletKey (t : List Char) : String :=
  normKey (beforeColon (lstripDashSpace t))

/-- The value of a subsection line: `line.split(':', 1)[1].strip()` when a
colon is present, else `line.lstrip('- ').strip()`. -/
def bulletVal (t : List Char) : String :=
  if hasColon t then ⟨pyStripChars (afterColon t)⟩ else ⟨pyStripChars (lstripDashSpace t)⟩

/-- One iteration of the line loop of `_process_campaign_response`.
`Except.error ()` models the `IndexError` raised by `split('.')[1]` on a
period-free section header, which the enclosing `except` turns into `[]`.
Campaign start: seal the open record (the flushed value is exact because
`subsection_data` is rebound to a fresh dict right after) and open a new one
with no aliases. Section header: flush the open subsection (the flushed entry
becomes aliased to the still-live accumulator); with a colon, the trailing
text becomes the section's scalar — rebinding that entry drops its alias —
and the accumulator and the other aliases stay live; without a colon,
`subsection_data = {}` rebinds to a fresh dict, dropping every alias.
Subsection line: mutate the accumulator and write the new contents through to
every aliased record entry. Key:value line: a plain entry assignment, which
drops that key's alias if it had one. -/
def stepLine (st : PState) (rawLine : String) : Except Unit PState :=
  let t := pyStripChars rawLine.data
  if t = [] then Except.ok st
  else if "Campaign".data.isPrefixOf t then
    let campaigns :=
      if st.current_campaign ≠ [] then
        st.campaigns ++ [flushSub st.current_campaign st.current_section st.subsection_data]
      else st.campaigns
    let name : String :=
      if hasColon t then ⟨pyStripChars (afterColon t)⟩ else ⟨t⟩
    Except.ok ⟨campaigns, [("campaign_name", Val.str name)], none, [], []⟩
  else if startsDigit19 t then
    let camp1 := flushHeader st.current_campaign st.current_section st.subsection_data
    let al1 := aliasAfterFlush st.current_section st.subsection_data st.aliased
    match secondDotPiece (beforeColon t) with
    | none => Except.error ()
    | some piece =>
      let key := normKey piece
      if hasColon t then
        Except.ok ⟨st.campaigns, dinsert key (Val.str ⟨pyStripChars (afterColon t)⟩) camp1,
          some key, st.subsection_data, unalias key al1⟩
      else
        Except.ok ⟨st.campaigns, camp1, some key, [], []⟩
  else if t.head? = some '-' then
    if secTruthy st.current_section then
      let sub : List (String × String) := dinsert (bulletKey t) (bulletVal t) st.subsection_data
      Except.ok ⟨st.campaigns, writeThrough st.aliased (Val.dict sub) st.current_campaign,
        st.current_section, sub, st.aliased⟩
    else Except.ok st
  else if hasColon t then
    Except.ok ⟨st.campaigns,
      dinsert (normKey (beforeColon t)) (Val.str ⟨pyStripChars (afterColon t)⟩)
        st.current_campaign,
      st.current_section, st.subsection_data, unalias (normKey (beforeColon t)) st.aliased⟩
  else Except.ok st

/-- Run the line loop over the whole input. -/
def runLines (st : PState) : List String → Except Unit PState
  | [] => Except.ok st
  | l :: ls =>
    match stepLine st l with
    | Except.ok st' => runLines st' ls
    | Except.error e => Except.error e

/-- End-of-input sealing: flush any open subsection, then append the last open
campaign record. -/
def finalizeState (st : PState) : List Campaign :=
  if st.current_campaign ≠ [] then
    st.campaigns ++ [flushSub st.current_campaign st.current_section st.subsection_data]
  else st.campaigns

/-- `_process_campaign_response` on an already-split line list: run the loop,
truncate to `cap` records; any internal `IndexError` yields `[]`. -/
def processLines (cap : Nat) (lines : List String) : List Campaign :=
  match runLines initPState lines with
  | Except.ok st => (finalizeState st).take cap
  | Except.error _ => []

/-- The constructor clamp `max(1, min(num_campaigns, 10))`. -/
def numCampaignsClamp (n : Int) : Nat := (max 1 (min n 10)).toNat

/-- Python `s.split('\n')` on a character list. -/
def splitNl : List Char → List (List Char)
  | [] => [[]]
  | c :: rest =>
    if c = '\n' then [] :: splitNl rest
    else
      match splitNl rest with
      | l :: ls => (c :: l) :: ls
      | [] => [[c]]

/-- `CampaignIdeaGenerator._process_campaign_response`: strip the raw response,
split on newlines, run the line loop. -/
def process_campaign_response (cap : Nat) (response : String) : List Campaign :=
  processLines cap ((splitNl (pyStripChars response.data)).map fun cs => ⟨cs⟩)

/-- The line classification implicit in the branch order of
`_process_campaign_response` (the tokenizer of the specification), as a pure
function of the line alone. `unclassified` marks non-blank lines that match no
branch and are silently skipped. -/
inductive LineClass : Type where
  | blank
  | campaignStart
  | sectionHeader
  | subsectionLine
  | keyValueLine
  | unclassified
deriving DecidableEq, Repr

/-- Classify one line exactly as the source's `if`/`elif` chain dispatches it. -/
def classifyLine (line : String) : LineClass :=
  let t := pyStripChars line.data
  if t = [] then LineClass.blank
  else if "Campaign".data.isPrefixOf t then LineClass.campaignStart
  else if startsDigit19 t then LineClass.sectionHeader
  else if t.head? = some '-' then LineClass.subsectionLine
  else if hasColon t then LineClass.keyValueLine
  else LineClass.unclassified

/-- The specification's wording for a section header (for comparison with the
code's dispatch): the line begins with a decimal digit 1-9 followed by a period. -/
def specSectionHeaderShape (line : String) : Bool :=
  match pyStripChars line.data with
  | c :: d :: _ => decide ('1' ≤ c ∧ c ≤ '9') && (d == '.')
  | _ => false

/-- Fetch with default for subsection lookups: Python `d.get(key, default)`. -/
def getOrS (d : List (String × String)) (key dflt : String) : String :=
  (dget d key).getD dflt

/-- Python `repr` of a dict of strings, as rendered by an f-string when a
campaign value happens to be a subsection mapping (quote escaping is not
modelled; no claim depends on this rendering). -/
def pyReprDict (d : List (String × String)) : String :=
  "\x7b" ++ String.intercalate ", " (d.map fun p => "'" ++ p.1 ++ "': '" ++ p.2 ++ "'") ++ "\x7d"

/-- Rendering of a campaign value inside an f-string. -/
def fstrVal : Option Val → String
  | some (Val.str s) => s
  | some (Val.dict d) => pyReprDict d
  | none => ""

/-- The `theme_desc` local of `_add_prompt_suggestions`: a missing
`visual_theme_description` defaults to `{}`, which takes the dict branch. -/
def theme_desc (camp : Campaign) : String :=
  let render := fun (d : List (String × String)) =>
    "Color palette: " ++ getOrS d "color_palette" "professional" ++ ". " ++
    "Style: " ++ getOrS d "photography_illustration_style" "modern" ++ ". " ++
    "Elements: " ++ getOrS d "key_visual_elements" "clean and minimal" ++ ". " ++
    "Mood: " ++ getOrS d "mood_and_atmosphere" "professional"
  match dget camp "visual_theme_description" with
  | some (Val.str s) => s
  | some (Val.dict d) => render d
  | none => render []

/-- The `emotion_desc` local of `_add_prompt_suggestions`. -/
def emotion_desc (camp : Campaign) : String :=
  let render := fun (d : List (String × String)) =>
    getOrS d "primary_emotion" "professional" ++ " mood with " ++
    getOrS d "supporting_psychological_triggers" "trust and reliability"
  match dget camp "key_emotional_appeal" with
  | some (Val.str s) => s
  | some (Val.dict d) => render d
  | none => render []

/-- The `product_prompt` local (before the final `.strip()`). -/
def product_prompt (camp : Campaign) : String :=
  theme_desc camp ++ ". " ++
  "Focus on " ++ fstrVal (dget camp "core_message") ++ ". " ++
  "Style: Professional photography, " ++ emotion_desc camp ++ ", " ++
  "photorealistic quality, advertisement composition, " ++
  "product-centric, commercial lighting"

/-- The `brand_prompt` local (before the final `.strip()`). -/
def brand_prompt (camp : Campaign) : String :=
  "Scene capturing " ++ emotion_desc camp ++ " through " ++
  theme_desc camp ++ ". " ++
  "Emphasizing: " ++ fstrVal (dget camp "core_message") ++ ". " ++
  "Style: Cinematic lighting, emotional depth, photorealistic quality, " ++
  "lifestyle photography, brand storytelling"

/-- The platform / content-format pair drawn from `social_media_focus`: a
missing key defaults to `{}` (dict branch); a scalar value is used directly as
the platform text with a fixed format fallback. -/
def socialPair (camp : Campaign) : String × String :=
  match dget camp "social_media_focus" with
  | some (Val.str s) => (s, "engaging social media content")
  | some (Val.dict d) =>
    (getOrS d "primary_platforms" "", getOrS d "content_format_recommendations" "")
  | none => (getOrS [] "primary_platforms" "", getOrS [] "content_format_recommendations" "")

/-- The `social_prompt` local (before the final `.strip()`). -/
def social_prompt (camp : Campaign) : String :=
  "Social media content for " ++ (socialPair camp).1 ++ ". " ++
  theme_desc camp ++ ". " ++
  "Format: " ++ (socialPair camp).2 ++ ". " ++
  "Style: " ++ emotion_desc camp ++ ", " ++
  "high engagement, platform-optimized, scroll-stopping visuals"

/-- The three derived prompts of one campaign record, each stripped, in the
insertion order of the source's dict literal. -/
def prompt_suggestions_of (camp : Campaign) : List (String × String) :=
  [("product_focused", pyStrip (product_prompt camp)),
   ("brand_focused", pyStrip (brand_prompt camp)),
   ("social_media", pyStrip (social_prompt camp))]

/-- `CampaignIdeaGenerator._add_prompt_suggestions`: for each sealed campaign
record, compute the three prompts and assign them under the key
`prompt_suggestions` on that record (the source mutates the record in place). -/
def add_prompt_suggestions (campaigns : List Campaign) : List Campaign :=
  campaigns.map fun camp =>
    dinsert "prompt_suggestions" (Val.dict (prompt_suggestions_of camp)) camp

/-- One persistent-tier document with the metadata fields the core reads.
`distance` stands for the embedding distance the external store reports
(semantic ranking is an external capability, abstracted as this field). -/
structure Doc : Type where
  document : String
  company_name : String
  content_type : String
  timestamp : String
  distance : Nat
deriving DecidableEq, Repr

/-- One ChromaDB collection. `getFails` models `client.get_collection` raising
for this collection (outside the inner `try` of `ChromaStore.search`, hence
uncaught); `queryFails` models `collection.query` raising (caught there). -/
structure Collection : Type where
  name : String
  getFails : Bool
  queryFails : Bool
  docs : List Doc
deriving DecidableEq, Repr

/-- Stable insertion preserving ascending distance order (Python `sorted` is
stable). -/
def insertByDistance (d : Doc) : List Doc → List Doc
  | [] => [d]
  | e :: rest =>
    if d.distance ≤ e.distance then d :: e :: rest else e :: insertByDistance d rest

/-- Python `sorted(results, key=lambda x: x["distance"])`. -/
def sortByDistance : List Doc → List Doc
  | [] => []
  | d :: rest => insertByDistance d (sortByDistance rest)

/-- Modelled from the spec: the external persistent-store query capability
(`collection.query` of chromadb, not repository code) — exact-equality filter
on both metadata fields, ranked by distance, at most `k` results. The filter
shape is the one `get_research_data` always constructs:
`$and [company_name $eq, content_type $eq]`. -/
def Collection.query (c : Collection) (k : Nat) (company contentType : String) :
    Except String (List Doc) :=
  if c.queryFails then Except.error ("Error querying collection " ++ c.name)
  else
    Except.ok ((sortByDistance (c.docs.filter
      fun d => (d.company_name == company) && (d.content_type == contentType))).take k)

/-- The collection loop of `ChromaStore.search` when no `session_id` is given:
`get_collection` failures propagate (they sit outside the inner `try`), while
`collection.query` failures are caught and the collection is skipped. -/
def searchCollections (k : Nat) (company contentType : String) :
    List Collection → Except String (List Doc)
  | [] => Except.ok []
  | c :: rest =>
    if c.getFails then Except.error ("get_collection failed: " ++ c.name)
    else
      match c.query k company contentType, searchCollections k company contentType rest with
      | Except.ok docs, Except.ok acc => Except.ok (docs ++ acc)
      | Except.error _, r => r
      | Except.ok _, Except.error e => Except.error e

/-- `ChromaStore.search` (the cross-collection branch used by `app.py`):
accumulate per-collection results, sort by distance, keep the top `k`. -/
def ChromaStore.search (client : List Collection) (k : Nat)
    (company contentType : String) : Except String (List Doc) :=
  match searchCollections k company contentType client with
  | Except.ok results => Except.ok ((sortByDistance results).take k)
  | Except.error e => Except.error e

/-- The `research_data` dict of `get_research_data`:
result value, provenance tag (`source`), timestamp. -/
structure SessionEntry : Type where
  result : String
  source : String
  timestamp : String
deriving DecidableEq, Repr

/-- The state `get_research_data` reads and writes: the session cache
(volatile tier, keyed by the `f"{company}_{audience}"` string), the ChromaDB
client (persistent tier), and a counter of generator invocations made so far.
The counter makes "how many times the research agent ran" observable. -/
structure AppState : Type where
  research_cache : List (String × SessionEntry)
  client : List Collection
  genCount : Nat
deriving DecidableEq, Repr

/-- `get_research_data` of `app.py`. `gen n` is the outcome of the `n`-th
invocation of `research_agent.run` (the generation capability, external);
`now` stands for `datetime.utcnow().isoformat()`. The `Except.error` result
models an exception escaping the function (only the un-`try`ed ChromaDB search
can raise); a generator failure is caught and becomes an error-tagged entry. -/
def get_research_data (gen : Nat → Except String String) (now company audience : String)
    (force_new : Bool) (st : AppState) : Except String (SessionEntry × AppState) :=
  match (if force_new then none else dget st.research_cache (company ++ "_" ++ audience)) with
  | some cached => Except.ok (⟨cached.result, "session_cache", cached.timestamp⟩, st)
  | none =>
    match (if force_new then Except.ok [] else ChromaStore.search st.client 1 company "analysis") with
    | Except.error e => Except.error e
    | Except.ok (d :: _) =>
      Except.ok (⟨d.document, "chroma_cache", d.timestamp⟩,
        ⟨dinsert (company ++ "_" ++ audience) ⟨d.document, "chroma_cache", d.timestamp⟩
          st.research_cache, st.client, st.genCount⟩)
    | Except.ok [] =>
      match gen st.genCount with
      | Except.ok res =>
        Except.ok (⟨res, "new_research", now⟩,
          ⟨dinsert (company ++ "_" ++ audience) ⟨res, "new_research", now⟩
            st.research_cache, st.client, st.genCount + 1⟩)
      | Except.error e =>
        Except.ok (⟨"Error during research: " ++ e, "error", now⟩,
          ⟨st.research_cache, st.client, st.genCount + 1⟩)

/-- Modelled from the spec: the Retry Policy (§4.5). The retry combinator
itself lives in the external `tenacity` library; the repository only supplies
its configuration `stop_after_attempt(3)` with exponential backoff on
`generate_campaign_ideas`. `f i` is the outcome of attempt `i`; the second
component counts invocations made. With one attempt remaining the last
outcome — success or the re-raised last failure — is returned. -/
def retryGo {E A : Type} (f : Nat → Except E A) : Nat → Nat → Except E A × Nat
  | i, 0 => (f i, i + 1)
  | i, 1 => (f i, i + 1)
  | i, n + 2 =>
    match f i with
    | Except.ok a => (Except.ok a, i + 1)
    | Except.error _ => retryGo f (i + 1) (n + 1)

/-- Modelled from the spec: run a generation call under the Retry Policy with
the given attempt ceiling, returning the final outcome and the number of
invocations made. -/
def retryRun {E A : Type} (ceiling : Nat) (f : Nat → Except E A) : Except E A × Nat :=
  retryGo f 0 ceiling

deriving instance DecidableEq for Except

theorem dget_dinsert_self {α : Type} (key : String) (v : α) (d : List (String × α)) :
    dget (dinsert key v d) key = some v := by
  induction d with
  | nil => simp [dinsert, dget]
  | cons p rest ih =>
    obtain ⟨k0, w0⟩ := p
    by_cases h : k0 = key <;> simp [dinsert, dget, h, ih]

theorem dget_dinsert_ne {α : Type} (key k : String) (v : α) (d : List (String × α))
    (h : k ≠ key) : dget (dinsert key v d) k = dget d k := by
  induction d with
  | nil => simp [dinsert, dget, Ne.symm h]
  | cons p rest ih =>
    obtain ⟨k0, w0⟩ := p
    by_cases h0 : k0 = key
    · subst h0
      simp [dinsert, dget, Ne.symm h]
    · simp [dinsert, dget, h0, ih]

theorem dget_writeThrough_notMem (al : List String) (v : Val) (camp : Campaign)
    (a : String) (h : a ∉ al) : dget (writeThrough al v camp) a = dget camp a := by
  induction al generalizing camp with
  | nil => rfl
  | cons b rest ih =>
    rw [writeThrough]
    rw [ih (dinsert b v camp) (fun hh => h (List.mem_cons_of_mem b hh))]
    exact dget_dinsert_ne b a v camp (fun hh => h (by simp [hh]))

theorem dget_writeThrough_mem (al : List String) (v : Val) (camp : Campaign)
    (a : String) (h : a ∈ al) : dget (writeThrough al v camp) a = some v := by
  induction al generalizing camp with
  | nil => cases h
  | cons b rest ih =>
    rw [writeThrough]
    by_cases hr : a ∈ rest
    · exact ih (dinsert b v camp) hr
    · have hab : a = b := by
        rcases List.mem_cons.mp h with h1 | h2
        · exact h1
        · exact absurd h2 hr
      subst hab
      rw [dget_writeThrough_notMem rest v (dinsert a v camp) a hr]
      exact dget_dinsert_self a v camp

theorem search_ok_empty (client : List Collection) (k : Nat) (company ct : String)
    (hget : ∀ c ∈ client, c.getFails = false)
    (hdocs : ∀ c ∈ client, c.queryFails = false →
      ∀ d ∈ c.docs, ¬ (d.company_name = company ∧ d.content_type = ct)) :
    ChromaStore.search client k company ct = Except.ok [] := by
  have main : searchCollections k company ct client = Except.ok [] := by
    induction client with
    | nil => rfl
    | cons c rest ih =>
      have hg : c.getFails = false := hget c (by simp)
      have hrest : searchCollections k company ct rest = Except.ok [] :=
        ih (fun x hx => hget x (by simp [hx])) (fun x hx => hdocs x (by simp [hx]))
      by_cases hq : c.queryFails
      · simp [searchCollections, hg, Collection.query, hq, hrest]
      · have hfilter : c.docs.filter
            (fun d => (d.company_name == company) && (d.content_type == ct)) = [] := by
          rw [List.filter_eq_nil_iff]
          intro d hd
          have := hdocs c (by simp) (by simp [hq]) d hd
          simp only [Bool.and_eq_true, beq_iff_eq]
          exact this
        simp [searchCollections, hg, Collection.query, hq, hfilter, hrest, sortByDistance]
  simp [ChromaStore.search, main, sortByDistance]

/-- C3: parsing the raw text with lines `Campaign: Launch Day`,
`1. Core Message: Save energy`, `2. Visual Theme Description:`,
`- Color Palette: green`, `- Mood: hopeful` with maximum count 5 yields exactly
one record `{campaign_name: "Launch Day", core_message: "Save energy",
visual_theme_description: {color_palette: "green", mood: "hopeful"}}`. -/
theorem c3_concrete_scenario :
    process_campaign_response (numCampaignsClamp 5)
      "Campaign: Launch Day\n1. Core Message: Save energy\n2. Visual Theme Description:\n- Color Palette: green\n- Mood: hopeful" =
    [[("campaign_name", Val.str "Launch Day"),
      ("core_message", Val.str "Save energy"),
      ("visual_theme_description", Val.dict [("color_palette", "green"), ("mood", "hopeful")])]] := by
  decide

/-- C2 counterexample: the input consisting of the single line `foo: bar`
contains no campaign-start marker, yet `_process_campaign_response` returns a
nonempty sequence — the bare key:value line populates an anonymous record that
is appended at end of input. This refutes the claim that every input with zero
campaign-start markers parses to an empty sequence. -/
theorem c2_counterexample :
    "Campaign".data.isPrefixOf (pyStripChars "foo: bar".data) = false ∧
    processLines 5 ["foo: bar"] = [[("foo", Val.str "bar")]] ∧
    processLines 5 ["foo: bar"] ≠ [] := by
  decide

/-- C5 counterexample: the line `2023 revenue: up` begins with a digit but has
no `digit.period` prefix, yet the code's dispatch classifies it as a section
header (the test is only `line.startswith(str(i)) for i in 1..9`); and the
non-blank line `hello world` matches no branch at all — it is silently skipped
rather than falling back to the key:value category. -/
theorem c5_counterexample :
    classifyLine "2023 revenue: up" = LineClass.sectionHeader ∧
    specSectionHeaderShape "2023 revenue: up" = false ∧
    classifyLine "hello world" = LineClass.unclassified ∧
    classifyLine "hello world" ≠ LineClass.keyValueLine := by
  decide

/-- C6 counterexample: in
`Campaign: X / 1. A: / - p: 1 / 2. B: scalar / - q: 2` the header `2. B:
scalar` has a colon with trailing content, so by the claim its record value
should stay the scalar `"scalar"` untouched by later bullets, and section `a`,
already flushed, should keep `{p: 1}`. The code never resets
`subsection_data` on such a header, and the flushed entry `a` still references
the live accumulator dict, so `- q: 2` retroactively turns `a` into
`{p: 1, q: 2}` and the same accumulated dict overwrites the scalar of `b` at
the final flush. -/
theorem c6_counterexample :
    processLines 5 ["Campaign: X", "1. A:", "- p: 1", "2. B: scalar", "- q: 2"] =
      [[("campaign_name", Val.str "X"), ("a", Val.dict [("p", "1"), ("q", "2")]),
        ("b", Val.dict [("p", "1"), ("q", "2")])]] ∧
    dget [("campaign_name", Val.str "X"), ("a", Val.dict [("p", "1"), ("q", "2")]),
        ("b", Val.dict [("p", "1"), ("q", "2")])] "b" ≠ some (Val.str "scalar") ∧
    dget [("campaign_name", Val.str "X"), ("a", Val.dict [("p", "1"), ("q", "2")]),
        ("b", Val.dict [("p", "1"), ("q", "2")])] "a" ≠ some (Val.dict [("p", "1")]) := by
  decide

/-- C7 counterexample: with an empty session cache and a persistent tier whose
collection retrieval raises, `get_research_data` propagates the exception to
its caller (the search call sits outside any `try`), instead of treating the
failure as a miss and invoking the generator as the claim states. -/
theorem c7_counterexample :
    get_research_data (fun _ => Except.ok "fresh") "t0" "Acme" "devs" false
      ⟨[], [⟨"session1", true, false, []⟩], 0⟩ =
    Except.error "get_collection failed: session1" := by
  decide

/-- C9 counterexample: `_add_prompt_suggestions` mutates a sealed record — it
assigns the `prompt_suggestions` key on it — so the pipeline step after
sealing does modify the record's keys, refuting the claim that sealed records
are never mutated and that the derivation leaves the record's keys unchanged. -/
theorem c9_counterexample :
    add_prompt_suggestions [[("campaign_name", Val.str "X")]] ≠
      [[("campaign_name", Val.str "X")]] ∧
    dget [("campaign_name", Val.str "X")] "prompt_suggestions" = none ∧
    dget ((add_prompt_suggestions [[("campaign_name", Val.str "X")]]).headD [])
      "prompt_suggestions" ≠ none := by
  decide

/-- C10: the volatile tier's key is the concatenation `f"{company}_{audience}"`,
so the distinct composite keys `("a_b", "c")` and `("a", "b_c")` collide on
`"a_b_c"`: after the first generates and caches, a call for the second returns
the first's session-cache entry (tagged `session_cache`, the volatile-hit tag)
with the first's result value, and the generator is not invoked (the
invocation counter stays at 1). -/
theorem c10_key_collision :
    (¬ ("a_b" = "a" ∧ "c" = "b_c")) ∧
    get_research_data (fun _ => Except.ok "research-v") "t1" "a_b" "c" false ⟨[], [], 0⟩ =
      Except.ok (⟨"research-v", "new_research", "t1"⟩,
        ⟨[("a_b_c", ⟨"research-v", "new_research", "t1"⟩)], [], 1⟩) ∧
    get_research_data (fun _ => Except.ok "other") "t2" "a" "b_c" false
        ⟨[("a_b_c", ⟨"research-v", "new_research", "t1"⟩)], [], 1⟩ =
      Except.ok (⟨"research-v", "session_cache", "t1"⟩,
        ⟨[("a_b_c", ⟨"research-v", "new_research", "t1"⟩)], [], 1⟩) := by
  decide

/-- C8: a generation call that fails on attempts 0 and 1 and succeeds on
attempt 2, run under the Retry Policy with ceiling 3, returns the success
value after exactly 3 invocations; and for any call failing on all three
attempts, the policy returns the failure of the last attempt (re-raised) after
exactly 3 invocations. -/
theorem c8_retry_scenario (f : Nat → Except String String) (v e0 e1 : String)
    (h0 : f 0 = Except.error e0) (h1 : f 1 = Except.error e1)
    (h2 : f 2 = Except.ok v) :
    retryRun 3 f = (Except.ok v, 3) ∧
    ∀ (g : Nat → Except String String) (e : Nat → String),
      (∀ i, i < 3 → g i = Except.error (e i)) →
      retryRun 3 g = (Except.error (e 2), 3) := by
  constructor
  · simp [retryRun, retryGo, h0, h1, h2]
  · intro g e hg
    simp [retryRun, retryGo, hg 0 (by omega), hg 1 (by omega), hg 2 (by omega)]

/-- C8 witness: a concrete generator failing twice then succeeding. -/
theorem c8_witness :
    retryRun 3 (fun i => if i = 2 then Except.ok "done" else Except.error "boom") =
      (Except.ok "done", 3) :=
  (c8_retry_scenario (fun i => if i = 2 then Except.ok "done" else Except.error "boom")
    "done" "boom" "boom" rfl rfl rfl).1

/-- C9 (amended): positions and count of records are preserved; each output
record equals its input record with exactly one modification — the
`prompt_suggestions` key is assigned the three derived prompts, themselves a
pure function (`prompt_suggestions_of`) of the record — and every other key's
value is left unchanged. (The original claim's "no mutation at all after
sealing" fails: see the counterexample.) -/
theorem c9_amended (camps : List Campaign) (i : Nat) (r : Campaign) (k : String)
    (hk : k ≠ "prompt_suggestions") :
    (add_prompt_suggestions camps).length = camps.length ∧
    (add_prompt_suggestions camps)[i]? = (camps[i]?).map
      (fun c => dinsert "prompt_suggestions" (Val.dict (prompt_suggestions_of c)) c) ∧
    dget (dinsert "prompt_suggestions" (Val.dict (prompt_suggestions_of r)) r) k =
      dget r k ∧
    dget (dinsert "prompt_suggestions" (Val.dict (prompt_suggestions_of r)) r)
      "prompt_suggestions" = some (Val.dict (prompt_suggestions_of r)) := by
  refine ⟨by simp [add_prompt_suggestions], ?_, ?_, ?_⟩
  · simp [add_prompt_suggestions]
  · exact dget_dinsert_ne "prompt_suggestions" k _ r hk
  · exact dget_dinsert_self "prompt_suggestions" _ r

/-- C9 witness: the amended statement at a concrete record. -/
theorem c9_witness :
    (add_prompt_suggestions [[("campaign_name", Val.str "X")]]).length = 1 ∧
    dget (dinsert "prompt_suggestions"
        (Val.dict (prompt_suggestions_of [("campaign_name", Val.str "X")]))
        [("campaign_name", Val.str "X")]) "campaign_name" =
      dget [("campaign_name", Val.str "X")] "campaign_name" := by
  have h := c9_amended [[("campaign_name", Val.str "X")]] 0
    [("campaign_name", Val.str "X")] "campaign_name" (by decide)
  exact ⟨h.1, h.2.2.1⟩

/-- C2 (amended): an input whose trimmed lines contain no campaign-start
marker, no line beginning with a digit 1-9, and no colon-containing line other
than dash-prefixed ones parses to the empty sequence and never raises. (The
original claim fails: digit-prefixed and bare key:value lines populate an
anonymous record that is appended even without any campaign-start marker —
see the counterexample.) -/
theorem c2_amended (cap : Nat) (lines : List String)
    (h : ∀ l ∈ lines,
      "Campaign".data.isPrefixOf (pyStripChars l.data) = false ∧
      startsDigit19 (pyStripChars l.data) = false ∧
      (hasColon (pyStripChars l.data) = true → (pyStripChars l.data).head? = some '-')) :
    processLines cap lines = [] := by
  have key : runLines initPState lines = Except.ok initPState := by
    induction lines with
    | nil => rfl
    | cons l ls ih =>
      have hl := h l (by simp)
      have hstep : stepLine initPState l = Except.ok initPState := by
        by_cases ht : pyStripChars l.data = []
        · simp [stepLine, ht]
        · by_cases hd : (pyStripChars l.data).head? = some '-'
          · simp [stepLine, ht, hl.1, hl.2.1, hd, secTruthy, initPState]
          · have hc : hasColon (pyStripChars l.data) = false := by
              cases hcc : hasColon (pyStripChars l.data)
              · rfl
              · exact absurd (hl.2.2 hcc) hd
            simp [stepLine, ht, hl.1, hl.2.1, hd, hc]
      rw [runLines, hstep]
      exact ih fun x hx => h x (by simp [hx])
  unfold processLines
  rw [key]
  simp [finalizeState, initPState]

/-- C2 witness: the amended statement at a concrete benign input. -/
theorem c2_witness : processLines 5 ["- x: y", "hello", ""] = [] :=
  c2_amended 5 ["- x: y", "hello", ""] (by decide)

/-- C4: with force_fresh unset, the volatile tier not containing the key, a
reachable persistent tier with no match for the key, and a succeeding
generator, two sequential `get_research_data` calls invoke the generator
exactly once (the invocation counter rises from `genCount` to `genCount + 1`
on the first call and is unchanged by the second), the second call returns the
entry tagged `session_cache` (the volatile-hit tag); and no single invocation
ever raises the counter by more than one. -/
theorem c4_round_trip (gen : Nat → String) (now now2 company audience : String)
    (st : AppState)
    (hmiss : dget st.research_cache (company ++ "_" ++ audience) = none)
    (hget : ∀ c ∈ st.client, c.getFails = false)
    (hdocs : ∀ c ∈ st.client, c.queryFails = false →
      ∀ d ∈ c.docs, ¬ (d.company_name = company ∧ d.content_type = "analysis")) :
    get_research_data (fun n => Except.ok (gen n)) now company audience false st =
      Except.ok (⟨gen st.genCount, "new_research", now⟩,
        ⟨dinsert (company ++ "_" ++ audience) ⟨gen st.genCount, "new_research", now⟩
          st.research_cache, st.client, st.genCount + 1⟩) ∧
    get_research_data (fun n => Except.ok (gen n)) now2 company audience false
        ⟨dinsert (company ++ "_" ++ audience) ⟨gen st.genCount, "new_research", now⟩
          st.research_cache, st.client, st.genCount + 1⟩ =
      Except.ok (⟨gen st.genCount, "session_cache", now⟩,
        ⟨dinsert (company ++ "_" ++ audience) ⟨gen st.genCount, "new_research", now⟩
          st.research_cache, st.client, st.genCount + 1⟩) ∧
    ∀ (gen2 : Nat → Except String String) (n2 c2 a2 : String) (f2 : Bool)
      (st2 : AppState) (e2 : SessionEntry) (st2' : AppState),
      get_research_data gen2 n2 c2 a2 f2 st2 = Except.ok (e2, st2') →
      st2'.genCount ≤ st2.genCount + 1 := by
  have hsearch := search_ok_empty st.client 1 company "analysis" hget hdocs
  refine ⟨?_, ?_, ?_⟩
  · simp [get_research_data, hmiss, hsearch]
  · simp [get_research_data, dget_dinsert_self]
  · intro gen2 n2 c2 a2 f2 st2 e2 st2' hh
    unfold get_research_data at hh
    split at hh
    all_goals try split at hh
    all_goals try split at hh
    all_goals try exact Except.noConfusion hh
    all_goals simp only [Except.ok.injEq, Prod.mk.injEq] at hh
    all_goals rw [← hh.2]
    all_goals exact Nat.le_succ _

/-- C4 witness: the round trip at a concrete key, generator and empty tiers. -/
theorem c4_witness :
    get_research_data (fun _ => Except.ok "r") "t1" "Acme" "devs" false ⟨[], [], 0⟩ =
      Except.ok (⟨"r", "new_research", "t1"⟩,
        ⟨[("Acme_devs", ⟨"r", "new_research", "t1"⟩)], [], 1⟩) ∧
    get_research_data (fun _ => Except.ok "r") "t2" "Acme" "devs" false
        ⟨[("Acme_devs", ⟨"r", "new_research", "t1"⟩)], [], 1⟩ =
      Except.ok (⟨"r", "session_cache", "t1"⟩,
        ⟨[("Acme_devs", ⟨"r", "new_research", "t1"⟩)], [], 1⟩) := by
  have h := c4_round_trip (fun _ => "r") "t1" "t2" "Acme" "devs" ⟨[], [], 0⟩ rfl
    (by simp) (by simp)
  exact ⟨h.1, h.2.1⟩

/-- C1 (code bug): after a fresh generation the result is cached only in the
session tier — the `client` (persistent tier) component of the state is
returned unchanged, although the source's own comment says "Cache the new
results in both session and ChromaDB". Consequently a fresh session (empty
volatile tier, same persistent tier) re-invokes the generator and returns an
entry tagged `new_research`, not the `chroma_cache` (persistent-hit) entry the
claim requires. -/
theorem c1_fresh_generation_not_persisted (gen : Nat → String)
    (now now2 company audience : String) (st : AppState)
    (hmiss : dget st.research_cache (company ++ "_" ++ audience) = none)
    (hget : ∀ c ∈ st.client, c.getFails = false)
    (hdocs : ∀ c ∈ st.client, c.queryFails = false →
      ∀ d ∈ c.docs, ¬ (d.company_name = company ∧ d.content_type = "analysis")) :
    get_research_data (fun n => Except.ok (gen n)) now company audience false st =
      Except.ok (⟨gen st.genCount, "new_research", now⟩,
        ⟨dinsert (company ++ "_" ++ audience) ⟨gen st.genCount, "new_research", now⟩
          st.research_cache, st.client, st.genCount + 1⟩) ∧
    get_research_data (fun n => Except.ok (gen n)) now2 company audience false
        ⟨[], st.client, 0⟩ =
      Except.ok (⟨gen 0, "new_research", now2⟩,
        ⟨[(company ++ "_" ++ audience, ⟨gen 0, "new_research", now2⟩)], st.client, 1⟩) := by
  have hsearch := search_ok_empty st.client 1 company "analysis" hget hdocs
  constructor
  · simp [get_research_data, hmiss, hsearch]
  · simp [get_research_data, dget, hsearch, dinsert]

/-- C1 witness: the divergence at a concrete failing input — company `Acme`,
audience `devs`, one reachable, matchless persistent collection. -/
theorem c1_witness :
    get_research_data (fun _ => Except.ok "r") "t1" "Acme" "devs" false
        ⟨[], [⟨"col", false, false, []⟩], 0⟩ =
      Except.ok (⟨"r", "new_research", "t1"⟩,
        ⟨[("Acme_devs", ⟨"r", "new_research", "t1"⟩)], [⟨"col", false, false, []⟩], 1⟩) ∧
    get_research_data (fun _ => Except.ok "r") "t2" "Acme" "devs" false
        ⟨[], [⟨"col", false, false, []⟩], 0⟩ =
      Except.ok (⟨"r", "new_research", "t2"⟩,
        ⟨[("Acme_devs", ⟨"r", "new_research", "t2"⟩)], [⟨"col", false, false, []⟩], 1⟩) := by
  have h := c1_fresh_generation_not_persisted (fun _ => "r") "t1" "t2" "Acme" "devs"
    ⟨[], [⟨"col", false, false, []⟩], 0⟩ rfl (by decide) (by decide)
  exact ⟨h.1, h.2⟩

/-- C7 (amended): a failure of an individual collection's query inside the
persistent tier's search is swallowed — the collection contributes no results,
so with no match elsewhere the call proceeds to the generator (even when the
failing collection holds a matching document); but a failure of collection
retrieval, which sits outside the inner `try`, propagates the exception to the
caller instead of being treated as a miss. -/
theorem c7_amended (gen : Nat → String) (now company audience : String) (st : AppState)
    (hmiss : dget st.research_cache (company ++ "_" ++ audience) = none)
    (hget : ∀ c ∈ st.client, c.getFails = false)
    (hdocs : ∀ c ∈ st.client, c.queryFails = false →
      ∀ d ∈ c.docs, ¬ (d.company_name = company ∧ d.content_type = "analysis")) :
    get_research_data (fun n => Except.ok (gen n)) now company audience false st =
      Except.ok (⟨gen st.genCount, "new_research", now⟩,
        ⟨dinsert (company ++ "_" ++ audience) ⟨gen st.genCount, "new_research", now⟩
          st.research_cache, st.client, st.genCount + 1⟩) ∧
    ∀ (bad : Collection) (rest : List Collection)
      (cache : List (String × SessionEntry)) (n : Nat),
      bad.getFails = true → dget cache (company ++ "_" ++ audience) = none →
      get_research_data (fun n2 => Except.ok (gen n2)) now company audience false
        ⟨cache, bad :: rest, n⟩ =
      Except.error ("get_collection failed: " ++ bad.name) := by
  have hsearch := search_ok_empty st.client 1 company "analysis" hget hdocs
  constructor
  · simp [get_research_data, hmiss, hsearch]
  · intro bad rest cache n hbad hcache
    have hs : ChromaStore.search (bad :: rest) 1 company "analysis" =
        Except.error ("get_collection failed: " ++ bad.name) := by
      simp [ChromaStore.search, searchCollections, hbad]
    simp [get_research_data, hcache, hs]

/-- C7 witness: a collection whose query fails while holding a matching
document is skipped, and the call falls through to fresh generation. -/
theorem c7_witness :
    get_research_data (fun _ => Except.ok "r") "t1" "Acme" "devs" false
        ⟨[], [⟨"colq", false, true, [⟨"match-doc", "Acme", "analysis", "t0", 0⟩]⟩], 0⟩ =
      Except.ok (⟨"r", "new_research", "t1"⟩,
        ⟨[("Acme_devs", ⟨"r", "new_research", "t1"⟩)],
         [⟨"colq", false, true, [⟨"match-doc", "Acme", "analysis", "t0", 0⟩]⟩], 1⟩) := by
  have h := c7_amended (fun _ => "r") "t1" "Acme" "devs"
    ⟨[], [⟨"colq", false, true, [⟨"match-doc", "Acme", "analysis", "t0", 0⟩]⟩], 0⟩ rfl
    (by decide) (by decide)
  exact h.1

/-- C5 (amended): the dispatch of `_process_campaign_response` classifies every
non-blank trimmed line into exactly one category, but: a line is a section
header iff it is not campaign-prefixed and its first character is a digit 1-9
— no following period is required; the key:value category additionally
requires a colon and is not a universal fallback — a non-blank line with no
campaign prefix, no leading digit 1-9, no leading dash and no colon matches no
branch and is skipped unchanged by the line loop. -/
theorem c5_amended (line : String) (h : pyStripChars line.data ≠ []) :
    (classifyLine line = LineClass.sectionHeader ↔
      ("Campaign".data.isPrefixOf (pyStripChars line.data) = false ∧
       startsDigit19 (pyStripChars line.data) = true)) ∧
    (classifyLine line = LineClass.keyValueLine ↔
      ("Campaign".data.isPrefixOf (pyStripChars line.data) = false ∧
       startsDigit19 (pyStripChars line.data) = false ∧
       (pyStripChars line.data).head? ≠ some '-' ∧
       hasColon (pyStripChars line.data) = true)) ∧
    (classifyLine line = LineClass.unclassified ↔
      ("Campaign".data.isPrefixOf (pyStripChars line.data) = false ∧
       startsDigit19 (pyStripChars line.data) = false ∧
       (pyStripChars line.data).head? ≠ some '-' ∧
       hasColon (pyStripChars line.data) = false)) ∧
    classifyLine line ≠ LineClass.blank ∧
    (classifyLine line = LineClass.unclassified →
      ∀ st : PState, stepLine st line = Except.ok st) := by
  by_cases hpc : "Campaign".data.isPrefixOf (pyStripChars line.data) = true
  · simp [classifyLine, h, hpc]
  · have hpc' : "Campaign".data.isPrefixOf (pyStripChars line.data) = false :=
      Bool.eq_false_iff.mpr hpc
    by_cases hdg : startsDigit19 (pyStripChars line.data) = true
    · simp [classifyLine, h, hpc', hdg]
    · have hdg' : startsDigit19 (pyStripChars line.data) = false :=
        Bool.eq_false_iff.mpr hdg
      by_cases hdash : (pyStripChars line.data).head? = some '-'
      · simp [classifyLine, h, hpc', hdg', hdash]
      · by_cases hcol : hasColon (pyStripChars line.data) = true
        · simp [classifyLine, h, hpc', hdg', hdash, hcol]
        · have hcol' : hasColon (pyStripChars line.data) = false :=
            Bool.eq_false_iff.mpr hcol
          simp [classifyLine, stepLine, h, hpc', hdg', hdash, hcol']

/-- C5 witness: the characterization at the concrete header line `1. Foo`. -/
theorem c5_witness :
    classifyLine "1. Foo" = LineClass.sectionHeader ↔
      ("Campaign".data.isPrefixOf (pyStripChars "1. Foo".data) = false ∧
       startsDigit19 (pyStripChars "1. Foo".data) = true) :=
  (c5_amended "1. Foo" (by decide)).1

/-- C6 (amended): on a section-header line containing a colon, the text after
the colon (possibly empty) becomes the section's scalar value, but the
subsection accumulator is neither reset nor detached: the just-flushed
previous section now references the live accumulator, so a subsequent
bulleted line extends the accumulator and thereby retroactively updates every
record section referencing it — including the previously flushed one — and
the accumulated contents also overwrite the header's scalar at the next
flush; only a header line with no colon at all opens a fresh empty
accumulator, dropping all such references. -/
theorem c6_amended (st : PState) (hline bline : String) (k : String) (piece : List Char)
    (hnc : "Campaign".data.isPrefixOf (pyStripChars hline.data) = false)
    (hd : startsDigit19 (pyStripChars hline.data) = true)
    (hp : secondDotPiece (beforeColon (pyStripChars hline.data)) = some piece)
    (hk : normKey piece = k)
    (hbnc : "Campaign".data.isPrefixOf (pyStripChars bline.data) = false)
    (hbd : startsDigit19 (pyStripChars bline.data) = false)
    (hbdash : (pyStripChars bline.data).head? = some '-')
    (hbsec : secTruthy st.current_section = true) :
    (hasColon (pyStripChars hline.data) = true →
      stepLine st hline = Except.ok
        ⟨st.campaigns,
         dinsert k (Val.str ⟨pyStripChars (afterColon (pyStripChars hline.data))⟩)
           (flushHeader st.current_campaign st.current_section st.subsection_data),
         some k, st.subsection_data,
         unalias k (aliasAfterFlush st.current_section st.subsection_data st.aliased)⟩) ∧
    (hasColon (pyStripChars hline.data) = false →
      stepLine st hline = Except.ok
        ⟨st.campaigns, flushHeader st.current_campaign st.current_section st.subsection_data,
         some k, [], []⟩) ∧
    stepLine st bline = Except.ok
      ⟨st.campaigns,
       writeThrough st.aliased
         (Val.dict (dinsert (bulletKey (pyStripChars bline.data))
           (bulletVal (pyStripChars bline.data)) st.subsection_data))
         st.current_campaign,
       st.current_section,
       dinsert (bulletKey (pyStripChars bline.data)) (bulletVal (pyStripChars bline.data))
         st.subsection_data,
       st.aliased⟩ ∧
    ∀ a ∈ st.aliased,
      dget (writeThrough st.aliased
        (Val.dict (dinsert (bulletKey (pyStripChars bline.data))
          (bulletVal (pyStripChars bline.data)) st.subsection_data))
        st.current_campaign) a =
      some (Val.dict (dinsert (bulletKey (pyStripChars bline.data))
        (bulletVal (pyStripChars bline.data)) st.subsection_data)) := by
  have ht : pyStripChars hline.data ≠ [] := by
    intro hh
    rw [hh] at hd
    simp [startsDigit19] at hd
  have htb : pyStripChars bline.data ≠ [] := by
    intro hh
    rw [hh] at hbdash
    simp at hbdash
  refine ⟨?_, ?_, ?_, ?_⟩
  · intro hcol
    simp [stepLine, ht, hnc, hd, hp, hk, hcol]
  · intro hcol
    simp [stepLine, ht, hnc, hd, hp, hk, hcol]
  · simp [stepLine, htb, hbnc, hbd, hbdash, hbsec]
  · intro a ha
    exact dget_writeThrough_mem st.aliased _ st.current_campaign a ha

/-- C6 witness: the bullet `- q: 2` arriving after `2. B: scalar` flushed
section `a` as `{p: 1}` — the step extends the accumulator and retroactively
rewrites the already-flushed section `a` to `{p: 1, q: 2}`. -/
theorem c6_witness :
    stepLine ⟨[], [("campaign_name", Val.str "X"), ("a", Val.dict [("p", "1")]),
        ("b", Val.str "scalar")], some "b", [("p", "1")], ["a"]⟩ "- q: 2" =
      Except.ok
        ⟨[], [("campaign_name", Val.str "X"), ("a", Val.dict [("p", "1"), ("q", "2")]),
          ("b", Val.str "scalar")], some "b", [("p", "1"), ("q", "2")], ["a"]⟩ ∧
    dget [("campaign_name", Val.str "X"), ("a", Val.dict [("p", "1"), ("q", "2")]),
        ("b", Val.str "scalar")] "a" = some (Val.dict [("p", "1"), ("q", "2")]) := by
  have h := c6_amended
    ⟨[], [("campaign_name", Val.str "X"), ("a", Val.dict [("p", "1")]),
      ("b", Val.str "scalar")], some "b", [("p", "1")], ["a"]⟩
    "3. C: x" "- q: 2" "c" (" C".data)
    (by decide) (by decide) (by decide) (by decide)
    (by decide) (by decide) (by decide) (by decide)
  refine ⟨?_, ?_⟩
  · exact h.2.2.1
  · exact h.2.2.2 "a" (by decide)
